import Mathlib

/-!
Verification of the ExcelMigrationTool core (`src/dedaexcelai`).

The Python sources are shallowly embedded: worksheets become total
functions from (row, column) to cell values, openpyxl cell values become
an inductive type (`None`, strings, numbers), and Python's unbounded
recursion (bounded in practice by the interpreter's recursion limit,
whose `RecursionError` is caught by the sources' `except` clauses and
turned into `None`) becomes explicit fuel.  Python floats are modelled
as rationals.  Python string operations (`strip`, `replace`, `split`,
`upper`, `in`) are modelled by structurally recursive functions on
character lists so that every embedded function evaluates inside the
kernel.
-/

namespace DedaExcelAI

/-! ## Python string primitives -/

/-- Python's default whitespace set for `str.strip`. -/
def isPySpace (c : Char) : Bool :=
  c == ' ' || c == '\t' || c == '\n' || c == '\r' || c == '\x0b' || c == '\x0c'

/-- Python `str.strip()` on a character list. -/
def stripList (cs : List Char) : List Char :=
  ((cs.dropWhile isPySpace).reverse.dropWhile isPySpace).reverse

/-- Worker for `replaceList`; the fuel starts at the list length, which
bounds the number of scan steps. -/
def replaceGo (old new : List Char) : Nat → List Char → List Char
  | 0, cs => cs
  | _+1, [] => []
  | fuel+1, c :: cs =>
    if old.isPrefixOf (c :: cs) then new ++ replaceGo old new fuel ((c :: cs).drop old.length)
    else c :: replaceGo old new fuel cs

/-- Python `str.replace(old, new)` for nonempty `old`: replace each
non-overlapping occurrence, scanning left to right. -/
def replaceList (cs old new : List Char) : List Char :=
  replaceGo old new cs.length cs

/-- Worker for `splitList`; `acc` holds the current field reversed. -/
def splitGo (sep : List Char) : Nat → List Char → List Char → List (List Char)
  | 0, acc, cs => [acc.reverse ++ cs]
  | _+1, acc, [] => [acc.reverse]
  | fuel+1, acc, c :: cs =>
    if sep.isPrefixOf (c :: cs) then acc.reverse :: splitGo sep fuel [] ((c :: cs).drop sep.length)
    else splitGo sep fuel (c :: acc) cs

/-- Python `str.split(sep)` for nonempty `sep`. -/
def splitList (cs sep : List Char) : List (List Char) :=
  splitGo sep cs.length [] cs

/-- Python `str.upper()` (ASCII). -/
def upperList (cs : List Char) : List Char :=
  cs.map Char.toUpper

/-- Does the string start with the given single character? -/
def headIs (s : String) (c : Char) : Bool :=
  match s.data with
  | [] => false
  | a :: _ => a == c

/-- Python `needle in hay` substring test on character lists. -/
def listContainsSub (hay needle : List Char) : Bool :=
  hay.tails.any (fun t => needle.isPrefixOf t)

/-- Python `needle in hay` substring test on strings. -/
def strContainsSub (hay needle : String) : Bool :=
  listContainsSub hay.data needle.data

/-! ## Data model -/

/-- A cell value as seen through openpyxl: `empty` models Python `None`,
`str` a string value (including formula text in the formula view), and
`num` an `int`/`float` value, modelled as a rational. -/
inductive CellVal where
  | empty : CellVal
  | str : String → CellVal
  | num : ℚ → CellVal
deriving DecidableEq, Repr

/-- A worksheet: a maximal row index plus a total assignment of cell
values to 1-indexed (row, column) coordinates, together with the bold
flag of each cell (`cell.font.b` in openpyxl). -/
structure Sheet where
  maxRow : Nat
  cells : Nat → Nat → CellVal
  bold : Nat → Nat → Bool

/-! ## excel/cell_operations.py -/

/-- `is_empty_or_dashes` from `excel/cell_operations.py` (lines 11-17):
`None` and `""` are empty; a string is "empty or dashes" when stripping
it and deleting every `-` leaves nothing; numbers are not. -/
def isEmptyOrDashes : CellVal → Bool
  | .empty => true
  | .str s => if s = "" then true else (replaceList (stripList s.data) ['-'] []).isEmpty
  | .num _ => false

/-- The separator-row test used by `find_element_catalog_interval`
(`excel/structure_analyzer.py` lines 16 and 26): the cell value is
empty-or-dashes, is a string, and contains at least one `-`. -/
def isSeparator (v : CellVal) : Bool :=
  isEmptyOrDashes v && (match v with | .str s => s.data.contains '-' | _ => false)

/-! ## excel/structure_analyzer.py -/

/-- The backward walk of `find_element_catalog_interval`
(`excel/structure_analyzer.py` lines 14-18): while the current start is
above row 1, stop as soon as the row just before it holds a separator
in column B (column 2), otherwise move the start up by one. -/
def findStart (sheet : Sheet) : Nat → Nat
  | 0 => 0
  | 1 => 1
  | n+2 => if isSeparator (sheet.cells (n+1) 2) then n+2 else findStart sheet (n+1)

/-- The forward walk of `find_element_catalog_interval`
(`excel/structure_analyzer.py` lines 21-32), with the loop counter made
explicit as fuel: scan `e` upward while `e ≤ max_row`; on the first
separator row strictly after `start` return `e - 1`; when the scan runs
past `max_row` (including fuel exhaustion, which by construction of
`findEnd` coincides with `e = max_row + 1`) clamp to `max_row`. -/
def findEndGo (sheet : Sheet) (start : Nat) : Nat → Nat → Nat
  | 0, _ => sheet.maxRow
  | fuel+1, e =>
    if sheet.maxRow < e then sheet.maxRow
    else if start < e ∧ isSeparator (sheet.cells e 2) then e - 1
    else findEndGo sheet start fuel (e+1)

/-- `end_row` of `find_element_catalog_interval`: forward walk starting
at `start` with enough fuel to reach one past `max_row`. -/
def findEnd (sheet : Sheet) (start : Nat) : Nat :=
  findEndGo sheet start (sheet.maxRow + 1 - start) start

/-- `find_element_catalog_interval` from `excel/structure_analyzer.py`
(lines 8-34): backward walk to a start bounded below by a separator,
then forward walk to an end bounded above by the next separator. -/
def findElementCatalogInterval (sheet : Sheet) (row : Nat) : Nat × Nat :=
  let s := findStart sheet row
  (s, findEnd sheet s)

/-- The two WBS keywords recognised by `determine_cost_type`. -/
inductive WbsType where
  | fixedWbs : WbsType
  | canone : WbsType
deriving DecidableEq, Repr

/-- The per-cell keyword test of `determine_cost_type`
(`excel/structure_analyzer.py` lines 65-74): a string cell whose
uppercased, stripped value is `FIXED` or `CANONE`. -/
def classifyWbs : CellVal → Option WbsType
  | .str s =>
    let u := stripList (upperList s.data)
    if u = "FIXED".data then some .fixedWbs
    else if u = "CANONE".data then some .canone
    else none
  | _ => none

/-- The interval scan of `determine_cost_type` (lines 63-74): walk the
rows of the interval in order, returning the first keyword found in
column D (column 4); `cnt` is the number of rows left to scan. -/
def scanWbsGo (sheet : Sheet) : Nat → Nat → Option WbsType
  | 0, _ => none
  | cnt+1, r =>
    match classifyWbs (sheet.cells r 4) with
    | some t => some t
    | none => scanWbsGo sheet cnt (r+1)

/-- Keyword scan over the inclusive row interval `[a, b]` in column D,
as `for r in range(interval_start, interval_end + 1)`. -/
def scanWbs (sheet : Sheet) (a b : Nat) : Option WbsType :=
  scanWbsGo sheet (b + 1 - a) a

/-- The mandatory-flag check of `determine_cost_type` (lines 57-60): the
cell in column F (column 6) is a string whose uppercased, stripped value
is exactly `M`. -/
def isMandatoryFlag (sheet : Sheet) (row : Nat) : Bool :=
  match sheet.cells row 6 with
  | .str s => stripList (upperList s.data) = "M".data
  | _ => false

/-- `determine_cost_type` from `excel/structure_analyzer.py` (lines
36-88): find the catalog interval of `row`, read the row's mandatory
flag, scan the interval for the first WBS keyword, and compose the
resulting cost-type string. -/
def determineCostType (row : Nat) (sheet : Sheet) : String :=
  let iv := findElementCatalogInterval sheet row
  let m := isMandatoryFlag sheet row
  match scanWbs sheet iv.1 iv.2 with
  | some .fixedWbs => if m then "Fixed Mandatory" else "Fixed Optional"
  | some .canone => if m then "Fee Mandatory" else "Fee Optional"
  | none => if m then "Fee Mandatory" else "Fee Optional"

/-! ## excel/utils/structure.py -/

/-- `find_header_row` from `excel/utils/structure.py` (lines 8-14):
`for row in range(1, min(10, sheet.max_row + 1))`, return the first row
whose column-1 cell equals `'Type'`, else default to row 1.  Note
`range(1, n)` enumerates `1 .. n-1`, so the scanned rows are
`1 .. min 10 (max_row + 1) - 1`. -/
def findHeaderRow (sheet : Sheet) : Nat :=
  match (List.range' 1 (min 10 (sheet.maxRow + 1) - 1)).find?
      (fun r => sheet.cells r 1 = CellVal.str "Type") with
  | some r => r
  | none => 1

/-- `column_letter_to_number` from `excel/utils/structure.py` (lines
16-21): base-26 fold over the characters, `A -> 1 .. Z -> 26`. -/
def columnLetterToNumber (cs : List Char) : Nat :=
  cs.foldl (fun acc c => acc * 26 + (c.toUpper.toNat - 'A'.toNat + 1)) 0

/-- Value of a digit string, as Python `int` on an all-digits string. -/
def digitsToNat (cs : List Char) : Nat :=
  cs.foldl (fun acc c => acc * 10 + (c.toNat - '0'.toNat)) 0

/-- The coordinate parsing of `get_cell_value_by_ref`
(`excel/utils/structure.py` lines 60-69): the column letters are the
alphabetic characters of the reference, the row digits the numeric
ones; either being empty is an invalid reference (`None`). -/
def refCoords (ref : String) : Option (Nat × Nat) :=
  let colLetters := ref.data.filter Char.isAlpha
  let rowDigits := ref.data.filter Char.isDigit
  if colLetters.isEmpty || rowDigits.isEmpty then none
  else some (digitsToNat rowDigits, columnLetterToNumber colLetters)

/-- `get_cell_value_by_ref` from `excel/utils/structure.py` (lines
57-96), with Python's recursion limit made explicit as fuel (a
`RecursionError` is caught by the function's `except` clause and turned
into `None`, which is what fuel 0 returns).  Parse the reference, look
the cell up; numbers resolve directly; a string value beginning with
`=` and containing `/` is split on `/` and resolved as a quotient of
its first two parts (each stripped of spaces and `$`), returning the
quotient only when both parts resolve and the denominator is nonzero;
everything else is `None`. -/
def getCellValueByRef (sheet : Sheet) : Nat → String → Option ℚ
  | 0, _ => none
  | fuel+1, ref =>
    match refCoords ref with
    | none => none
    | some (row, col) =>
      match sheet.cells row col with
      | .empty => none
      | .num q => some q
      | .str v =>
        if headIs v '=' then
          if v.data.contains '/' then
            let parts := splitList (v.data.drop 1) ['/']
            match getCellValueByRef sheet fuel
                    (String.mk (replaceList (stripList (parts.getD 0 [])) ['$'] [])),
                  getCellValueByRef sheet fuel
                    (String.mk (replaceList (stripList (parts.getD 1 [])) ['$'] [])) with
            | some n, some d => if d = 0 then none else some (n / d)
            | _, _ => none
          else none
        else none

/-- The accumulator loop of `evaluate_primitive_formula`
(`excel/utils/structure.py` lines 106-118): fold over the `*`-split
parts; a part mentioning `PRIMITIVE!` is stripped of its sheet prefix,
resolved through `get_cell_value_by_ref` and multiplied in, and an
unresolved part makes the whole evaluation return `0` immediately;
parts without `PRIMITIVE!` are skipped. -/
def evalPrimGo (sheet : Sheet) (fuel : Nat) : List (List Char) → ℚ → ℚ
  | [], acc => acc
  | p :: ps, acc =>
    if listContainsSub p "PRIMITIVE!".data then
      match getCellValueByRef sheet fuel
              (String.mk (replaceList (stripList p) "PRIMITIVE!".data [])) with
      | some v => evalPrimGo sheet fuel ps (acc * v)
      | none => 0
    else evalPrimGo sheet fuel ps acc

/-- `evaluate_primitive_formula` from `excel/utils/structure.py` (lines
98-123): formulas not mentioning `PRIMITIVE!` (including the empty
string) evaluate to `0`; otherwise the `*`-chain is folded starting
from `1`. -/
def evaluatePrimitiveFormula (fuel : Nat) (formula : String) (primitive : Sheet) : ℚ :=
  if listContainsSub formula.data "PRIMITIVE!".data then
    evalPrimGo primitive fuel (splitList formula.data ['*']) 1
  else 0

/-- The range parsing of `evaluate_sum_formula` (`excel/utils/structure.py`
lines 26-41): require the `=SUM(` prefix (case-insensitive), cut it and
the trailing `)`, split the range on `:`, and read each endpoint's
column letters and row digits.  Parse failures raise in the source and
its `except` clause takes over, so they are modelled as `none`.
Returns (start column, start row, end column, end row). -/
def parseSumRange (formula : String) : Option (Nat × Nat × Nat × Nat) :=
  if "=SUM(".data.isPrefixOf (upperList formula.data) then
    let rangePart := (formula.data.drop 5).dropLast
    match splitList rangePart [':'] with
    | [startRef, endRef] =>
      let sc := startRef.filter Char.isAlpha
      let sr := startRef.filter Char.isDigit
      let ec := endRef.filter Char.isAlpha
      let er := endRef.filter Char.isDigit
      if sr.isEmpty || er.isEmpty then none
      else some (columnLetterToNumber sc, digitsToNat sr, columnLetterToNumber ec, digitsToNat er)
    | _ => none
  else none

/-! ## excel/cell_operations.py: reference extraction and fallback -/

/-- The token list of `extract_cell_references`
(`excel/cell_operations.py` lines 36-40): strip a leading `=`, then
split on the multiplication operator. -/
def strippedTokens (formula : String) : List (List Char) :=
  splitList (if headIs formula '=' then formula.data.drop 1 else formula.data) ['*']

/-- `extract_cell_references` from `excel/cell_operations.py` (lines
29-52): for each token containing `!`, unpack
`sheet, cell = part.split('!')`.  A token that splits into more than
two fields makes that unpacking raise, and the surrounding `except`
discards everything collected so far and returns `[]`; tokens without
`!` are skipped. -/
def extractCellReferences (formula : String) : List (String × String) :=
  if (strippedTokens formula).any (fun p => decide (2 < (splitList p ['!']).length)) then []
  else (strippedTokens formula).filterMap (fun p =>
    match splitList p ['!'] with
    | [sh, ce] => some (String.mk sh, String.mk ce)
    | _ => none)

/-- `get_cell_value_with_fallback` from `excel/cell_operations.py`
(lines 54-77): prefer the cached data value when it is numeric, else
the formula-view value when numeric, else `None`. -/
def getCellValueWithFallback (formulaCell dataCell : CellVal) : Option ℚ :=
  match dataCell with
  | .num q => some q
  | _ =>
    match formulaCell with
    | .num q => some q
    | _ => none

/-- Python `int(s)` restricted to the outcomes usable as an openpyxl
row index: strip, allow a leading `+`, then require nonempty digits.
Inputs on which `int` raises — and negative results, on which
`sheet.cell` raises — land in the callers' `except` clauses, which
return `None`, so both are modelled as `none`. -/
def pyIntNat (cs : List Char) : Option Nat :=
  let t := stripList cs
  let u := match t with | '+' :: rest => rest | _ => t
  if u.isEmpty then none
  else if u.all Char.isDigit then some (digitsToNat u) else none

/-! ## llm/startup_analyzer.py -/

/-- The deterministic part of `StartupDaysAnalyzer._analyze_single_formula`
(`llm/startup_analyzer.py` lines 102-128): extract references; when the
first one targets the `PRIMITIVE` sheet (case-insensitive), take the
column from the reference's first character
(`column_index_from_string(cell_ref[0])`, which raises on a non-letter)
and the row from `int(cell_ref[1:])`, then look the cell up with
`get_cell_value_with_fallback`.  `none` models every path to no
deterministic value: no references, a first reference not targeting
`PRIMITIVE`, a parsing exception, or a non-numeric cell — the source
then escalates to the external GPT fallback (out of scope), whose
outcome is not a deterministic resolution. -/
def analyzeSingleFormula (primFormulas primData : Sheet) (formula : String) : Option ℚ :=
  match extractCellReferences formula with
  | [] => none
  | (sheetName, cellRef) :: _ =>
    if upperList sheetName.data = "PRIMITIVE".data then
      match cellRef.data with
      | [] => none
      | c :: rest =>
        if c.isAlpha then
          match pyIntNat rest with
          | some row =>
            let col := c.toUpper.toNat - 'A'.toNat + 1
            getCellValueWithFallback (primFormulas.cells row col) (primData.cells row col)
          | none => none
        else none
    else none

/-! ## excel/cost_processor.py -/

/-- The two concrete processor classes of `excel/cost_processor.py`. -/
inductive ProcKind where
  | fixedCost : ProcKind
  | feeCost : ProcKind
deriving DecidableEq, Repr

/-- `create_cost_processor` from `excel/cost_processor.py` (lines
71-78): substring dispatch on the cost-type string; an unknown string
raises `ValueError`, modelled as the `error` branch. -/
def createCostProcessor (costType : String) : Except String ProcKind :=
  if strContainsSub costType "Fixed" then .ok .fixedCost
  else if strContainsSub costType "Fee" then .ok .feeCost
  else .error ("Unknown cost type: " ++ costType)

/-! ## excel/migrator.py, element-catalog branch -/

/-- The `SUM` formula written by `migrate_excel` for an element-catalog
row (`excel/migrator.py` line 184): a fixed nine-row block of column P
starting just below the element's own output row. -/
def elementSumFormula (currentOutputRow : Nat) : String :=
  "=SUM(P" ++ toString (currentOutputRow + 1) ++ ":P" ++ toString (currentOutputRow + 9) ++ ")"

/-- Python truthiness of a cell value: `None`, `""` and `0` are falsy. -/
def truthyCell : CellVal → Bool
  | .empty => false
  | .str s => s ≠ ""
  | .num q => q ≠ 0

/-- The sub-element collection loop of `migrate_excel`
(`excel/migrator.py` lines 188-196): scan the rows below the element
row; a truthy string containing `---` stops the scan; truthy,
non-empty-or-dashes values are collected as sub-element source rows.
`cnt` is the number of rows left, matching `range(row+1, max_row+1)`. -/
def collectSubGo (sheet : Sheet) : Nat → Nat → List Nat
  | 0, _ => []
  | cnt+1, r =>
    let v := sheet.cells r 2
    if (match v with
        | .str s => (s != "") && listContainsSub s.data "---".data
        | _ => false : Bool) then []
    else if truthyCell v && !isEmptyOrDashes v then r :: collectSubGo sheet cnt (r+1)
    else collectSubGo sheet cnt (r+1)

/-- Sub-element source rows found below an element-catalog row by
`migrate_excel`. -/
def collectSubElements (sheet : Sheet) (row : Nat) : List Nat :=
  collectSubGo sheet (sheet.maxRow - row) (row+1)

/-- Output rows that `migrate_excel` assigns to the sub-elements of an
element emitted at output row `currentOutputRow` (lines 199-216): after
`current_output_row += 1`, sub-element `i` is written at
`current_output_row + i`. -/
def subElementOutputRows (currentOutputRow k : Nat) : List Nat :=
  List.range' (currentOutputRow + 1) k

/-- The rows named by the nine-row `SUM` range of `elementSumFormula`:
`P(n+1) .. P(n+9)`. -/
def sumFormulaRows (currentOutputRow : Nat) : List Nat :=
  List.range' (currentOutputRow + 1) 9

/-! ## Specification-side definitions

Declarative counterparts used to state the claims, to be compared with
the loop-shaped embeddings above. -/

/-- The cost-type composition table actually implemented by
`determine_cost_type`: the keyword picks Fixed vs Fee, the mandatory
flag picks Mandatory vs Optional, and the no-keyword default also
composes with the mandatory flag. -/
def wbsCompose : Option WbsType → Bool → String
  | some .fixedWbs, true => "Fixed Mandatory"
  | some .fixedWbs, false => "Fixed Optional"
  | some .canone, true => "Fee Mandatory"
  | some .canone, false => "Fee Optional"
  | none, true => "Fee Mandatory"
  | none, false => "Fee Optional"

/-- Declarative first-keyword scan: the first defined classification of
the column-D cells of rows `a .. b`, in row order. -/
def firstWbsKeyword (sheet : Sheet) (a b : Nat) : Option WbsType :=
  (List.range' a (b + 1 - a)).findSome? (fun r => classifyWbs (sheet.cells r 4))

/-- All-or-nothing resolution of a list of multiplication factors:
every factor must resolve through `get_cell_value_by_ref` after
dropping the `PRIMITIVE!` prefix, else the whole list fails. -/
def resolveFactors (sheet : Sheet) (fuel : Nat) : List (List Char) → Option (List ℚ)
  | [] => some []
  | p :: ps =>
    match getCellValueByRef sheet fuel
            (String.mk (replaceList (stripList p) "PRIMITIVE!".data [])),
          resolveFactors sheet fuel ps with
    | some v, some vs => some (v :: vs)
    | _, _ => none

/-! ## Concrete worksheets used as test inputs -/

/-- Sheet with a single catalog row that carries the mandatory flag but
no WBS keyword anywhere in its interval. -/
def c1Cells : Nat → Nat → CellVal := fun r c =>
  match r, c with
  | 1, 2 => .str "svc"
  | 1, 6 => .str "M"
  | _, _ => .empty

/-- See `c1Cells`. -/
def c1Sheet : Sheet := ⟨1, c1Cells, fun _ _ => false⟩

/-- Sheet whose row 2 is itself a dash-only separator row. -/
def c2Cells : Nat → Nat → CellVal := fun r c =>
  match r, c with
  | 1, 2 => .str "x"
  | 2, 2 => .str "---"
  | _, _ => .empty

/-- See `c2Cells`. -/
def c2Sheet : Sheet := ⟨2, c2Cells, fun _ _ => false⟩

/-- A well-formed two-row catalog closed by a separator row. -/
def w2Cells : Nat → Nat → CellVal := fun r c =>
  match r, c with
  | 1, 2 => .str "a"
  | 2, 2 => .str "b"
  | 3, 2 => .str "---"
  | _, _ => .empty

/-- See `w2Cells`. -/
def w2Sheet : Sheet := ⟨3, w2Cells, fun _ _ => false⟩

/-- A bold element-catalog row with exactly two sub-element rows below
it, closed by a `---` separator. -/
def c3Cells : Nat → Nat → CellVal := fun r c =>
  match r, c with
  | 1, 2 => .str "ELEM"
  | 2, 2 => .str "sub one"
  | 3, 2 => .str "sub two"
  | 4, 2 => .str "---"
  | _, _ => .empty

/-- See `c3Cells`; only the element row is bold. -/
def c3Sheet : Sheet := ⟨4, c3Cells, fun r c => r == 1 && c == 2⟩

/-- PRIMITIVE sheet where `A1` holds `3` and `B1` is empty. -/
def c4Cells : Nat → Nat → CellVal := fun r c =>
  match r, c with
  | 1, 1 => .num 3
  | _, _ => .empty

/-- See `c4Cells`. -/
def c4Sheet : Sheet := ⟨5, c4Cells, fun _ _ => false⟩

/-- Sheet where `A1` holds the division formula `=S25/B13`, `S25`
holds `10`, and `B13` holds `0`. -/
def c5Cells : Nat → Nat → CellVal := fun r c =>
  match r, c with
  | 1, 1 => .str "=S25/B13"
  | 25, 19 => .num 10
  | 13, 2 => .num 0
  | _, _ => .empty

/-- See `c5Cells`. -/
def c5Sheet : Sheet := ⟨30, c5Cells, fun _ _ => false⟩

/-- Sheet with the header sentinel `Type` in column 1 of row 10 and a
ten-row extent. -/
def c6Cells : Nat → Nat → CellVal := fun r c =>
  match r, c with
  | 10, 1 => .str "Type"
  | _, _ => .empty

/-- See `c6Cells`. -/
def c6Sheet : Sheet := ⟨10, c6Cells, fun _ _ => false⟩

/-- Cyclic formula chain: `A1 = "=B1/C1"`, `B1 = "=A1/C1"`, `C1 = 5`,
so resolving `A1` revisits `A1` through `B1`. -/
def cycCells : Nat → Nat → CellVal := fun r c =>
  match r, c with
  | 1, 1 => .str "=B1/C1"
  | 1, 2 => .str "=A1/C1"
  | 1, 3 => .num 5
  | _, _ => .empty

/-- See `cycCells`. -/
def cycSheet : Sheet := ⟨1, cycCells, fun _ _ => false⟩

/-- PRIMITIVE data view holding `5` in cell `B2`. -/
def c9dCells : Nat → Nat → CellVal := fun r c =>
  match r, c with
  | 2, 2 => .num 5
  | _, _ => .empty

/-- See `c9dCells`. -/
def c9dSheet : Sheet := ⟨5, c9dCells, fun _ _ => false⟩

/-- A sheet with no values at all. -/
def emptySheet : Sheet := ⟨5, fun _ _ => .empty, fun _ _ => false⟩

/-! ## Lemmas about the structure scanner -/

/-- Unfolding of the interval finder. -/
theorem findElementCatalogInterval_def (sheet : Sheet) (row : Nat) :
    findElementCatalogInterval sheet row =
      (findStart sheet row, findEnd sheet (findStart sheet row)) := rfl

/-- The backward walk never moves the start below row 1 (for rows ≥ 1). -/
theorem findStart_pos (sheet : Sheet) : ∀ r, 1 ≤ r → 1 ≤ findStart sheet r
  | 1, _ => by simp [findStart]
  | n+2, _ => by
    simp only [findStart]
    split
    · omega
    · exact findStart_pos sheet (n+1) (by omega)

/-- The backward walk never moves the start above the queried row. -/
theorem findStart_le (sheet : Sheet) : ∀ r, findStart sheet r ≤ r
  | 0 => by simp [findStart]
  | 1 => by simp [findStart]
  | n+2 => by
    simp only [findStart]
    split
    · exact Nat.le_refl _
    · exact Nat.le_trans (findStart_le sheet (n+1)) (by omega)

/-- Where the backward walk stops: either at row 1, or just above a
separator row. -/
theorem findStart_sep_or_one (sheet : Sheet) :
    ∀ r, 1 ≤ r →
      findStart sheet r = 1 ∨ isSeparator (sheet.cells (findStart sheet r - 1) 2) = true
  | 1, _ => by simp [findStart]
  | n+2, _ => by
    simp only [findStart]
    split
    · next h => right; simpa using h
    · exact findStart_sep_or_one sheet (n+1) (by omega)

/-- No row strictly between the found start and the queried row is a
separator row. -/
theorem findStart_no_sep (sheet : Sheet) :
    ∀ r k, findStart sheet r ≤ k → k < r → isSeparator (sheet.cells k 2) = false
  | 0, k => by intro h1 h2; omega
  | 1, k => by simp only [findStart]; intro h1 h2; omega
  | n+2, k => by
    simp only [findStart]
    intro h1 h2
    split at h1
    · omega
    · next hns =>
      rcases Nat.lt_or_ge k (n+1) with hk | hk
      · exact findStart_no_sep sheet (n+1) k h1 hk
      · have hkk : k = n+1 := by omega
        subst hkk
        simpa using hns

/-- Once the forward walk has passed the queried row, its result stays
at or above that row. -/
theorem findEndGo_ge_of_gt (sheet : Sheet) (start row : Nat) (hrow : row ≤ sheet.maxRow) :
    ∀ fuel e, row + 1 ≤ e → row ≤ findEndGo sheet start fuel e
  | 0, e => fun _ => hrow
  | fuel+1, e => fun h => by
    simp only [findEndGo]
    split
    · exact hrow
    · split
      · omega
      · exact findEndGo_ge_of_gt sheet start row hrow fuel (e+1) (by omega)

/-- If no row from the scan position up to the queried row is a
separator, the forward walk reaches at least the queried row. -/
theorem findEndGo_ge (sheet : Sheet) (start row : Nat) (hrow : row ≤ sheet.maxRow) :
    ∀ fuel e, e ≤ row →
      (∀ k, e ≤ k → k ≤ row → isSeparator (sheet.cells k 2) = false) →
      row ≤ findEndGo sheet start fuel e
  | 0, e => fun _ _ => hrow
  | fuel+1, e => fun he hns => by
    simp only [findEndGo]
    split
    · exact hrow
    · split
      · next hsep =>
        have hcontra := hns e (Nat.le_refl e) he
        rw [hsep.2] at hcontra
        exact absurd hcontra (by simp)
      · rcases Nat.lt_or_ge row (e+1) with h | h
        · exact findEndGo_ge_of_gt sheet start row hrow fuel (e+1) (by omega)
        · exact findEndGo_ge sheet start row hrow fuel (e+1) h
            (fun k hk1 hk2 => hns k (by omega) hk2)

/-- The forward walk stops either at the sheet's last row or just
before a separator row that is still inside the sheet. -/
theorem findEndGo_boundary (sheet : Sheet) (start : Nat) :
    ∀ fuel e,
      findEndGo sheet start fuel e = sheet.maxRow ∨
        (findEndGo sheet start fuel e + 1 ≤ sheet.maxRow ∧
          isSeparator (sheet.cells (findEndGo sheet start fuel e + 1) 2) = true)
  | 0, e => Or.inl rfl
  | fuel+1, e => by
    simp only [findEndGo]
    split
    · exact Or.inl rfl
    · split
      · next hle hsep =>
        right
        have he1 : 1 ≤ e := by omega
        have hee : e - 1 + 1 = e := by omega
        refine ⟨by omega, ?_⟩
        rw [hee]
        exact hsep.2
      · exact findEndGo_boundary sheet start fuel (e+1)

/-- C2, counterexample.  On `c2Sheet` the queried row 2 is itself a
dash-only separator row, and the returned interval is `(1, 1)`, so the
claimed bound `start_row ≤ row ≤ end_row` fails: the claim does not
hold for every row index of a sheet. -/
theorem find_catalog_interval_separator_row_counterexample :
    isSeparator (c2Sheet.cells 2 2) = true ∧
    findElementCatalogInterval c2Sheet 2 = (1, 1) ∧
    ¬ ((findElementCatalogInterval c2Sheet 2).1 ≤ 2 ∧
        2 ≤ (findElementCatalogInterval c2Sheet 2).2) := by
  refine ⟨by decide, by decide, by decide⟩

/-- C2, amended.  For every sheet and every row of it whose name-column
cell is not itself a separator, the catalog interval satisfies
`start_row ≤ row ≤ end_row`, the row just before `start_row` (when it
exists, i.e. when `start_row > 1`) is a dash-only separator row, and
the row just after `end_row` (when it exists within the sheet) is a
dash-only separator row. -/
theorem find_catalog_interval_bounds (sheet : Sheet) (row : Nat)
    (h1 : 1 ≤ row) (h2 : row ≤ sheet.maxRow)
    (h3 : isSeparator (sheet.cells row 2) = false) :
    (findElementCatalogInterval sheet row).1 ≤ row ∧
    row ≤ (findElementCatalogInterval sheet row).2 ∧
    ((findElementCatalogInterval sheet row).1 = 1 ∨
      isSeparator (sheet.cells ((findElementCatalogInterval sheet row).1 - 1) 2) = true) ∧
    ((findElementCatalogInterval sheet row).2 = sheet.maxRow ∨
      ((findElementCatalogInterval sheet row).2 + 1 ≤ sheet.maxRow ∧
        isSeparator (sheet.cells ((findElementCatalogInterval sheet row).2 + 1) 2) = true)) := by
  rw [findElementCatalogInterval_def]
  refine ⟨findStart_le sheet row, ?_, findStart_sep_or_one sheet row h1, ?_⟩
  · unfold findEnd
    apply findEndGo_ge sheet _ row h2 _ (findStart sheet row) (findStart_le sheet row)
    intro k hk1 hk2
    rcases Nat.lt_or_ge k row with h | h
    · exact findStart_no_sep sheet row k hk1 h
    · have hkk : k = row := by omega
      subst hkk
      exact h3
  · unfold findEnd
    exact findEndGo_boundary sheet (findStart sheet row) _ _

/-- C2, witness: on the well-formed sheet `w2Sheet`, row 2 yields the
interval `(1, 2)` with a separator just after it. -/
theorem find_catalog_interval_bounds_witness :
    (findElementCatalogInterval w2Sheet 2).1 ≤ 2 ∧
    2 ≤ (findElementCatalogInterval w2Sheet 2).2 ∧
    ((findElementCatalogInterval w2Sheet 2).1 = 1 ∨
      isSeparator (w2Sheet.cells ((findElementCatalogInterval w2Sheet 2).1 - 1) 2) = true) ∧
    ((findElementCatalogInterval w2Sheet 2).2 = w2Sheet.maxRow ∨
      ((findElementCatalogInterval w2Sheet 2).2 + 1 ≤ w2Sheet.maxRow ∧
        isSeparator (w2Sheet.cells ((findElementCatalogInterval w2Sheet 2).2 + 1) 2) = true)) :=
  find_catalog_interval_bounds w2Sheet 2 (by decide) (by decide) (by decide)

/-! ## Cost-type classification -/

/-- The keyword-scan loop equals the declarative first-keyword search
over the same row range. -/
theorem scanWbsGo_eq_findSome? (sheet : Sheet) :
    ∀ cnt r, scanWbsGo sheet cnt r =
      (List.range' r cnt).findSome? (fun x => classifyWbs (sheet.cells x 4))
  | 0, r => by simp [scanWbsGo]
  | cnt+1, r => by
    rw [List.range'_succ]
    simp only [scanWbsGo, List.findSome?]
    cases classifyWbs (sheet.cells r 4) with
    | some t => rfl
    | none => exact scanWbsGo_eq_findSome? sheet cnt (r+1)

/-- C1, counterexample.  On `c1Sheet`, no WBS keyword appears anywhere
in row 1's catalog interval, yet the row's mandatory flag is set and
the classification is `Fee Mandatory`, not the claimed unconditional
default `Fee Optional`. -/
theorem determine_cost_type_default_counterexample :
    findElementCatalogInterval c1Sheet 1 = (1, 1) ∧
    scanWbs c1Sheet 1 1 = none ∧
    isMandatoryFlag c1Sheet 1 = true ∧
    determineCostType 1 c1Sheet = "Fee Mandatory" ∧
    determineCostType 1 c1Sheet ≠ "Fee Optional" := by
  refine ⟨by decide, by decide, by decide, by decide, by decide⟩

/-- C1, amended.  For every row and sheet, the classification equals
the composition of (a) the first case-insensitive `FIXED`/`CANONE`
keyword found scanning the row's catalog interval in order, and (b) the
row's exact case-insensitive `M` mandatory flag — where the no-keyword
default is `Fee Mandatory` when the flag is set and `Fee Optional`
otherwise (not `Fee Optional` unconditionally); classification is never
refused. -/
theorem determine_cost_type_eq_compose (row : Nat) (sheet : Sheet) :
    determineCostType row sheet =
      wbsCompose
        (firstWbsKeyword sheet (findElementCatalogInterval sheet row).1
          (findElementCatalogInterval sheet row).2)
        (isMandatoryFlag sheet row) := by
  simp only [determineCostType, firstWbsKeyword, scanWbs]
  rw [← scanWbsGo_eq_findSome?]
  cases scanWbsGo sheet
      ((findElementCatalogInterval sheet row).2 + 1 - (findElementCatalogInterval sheet row).1)
      (findElementCatalogInterval sheet row).1 with
  | none => cases isMandatoryFlag sheet row <;> rfl
  | some t => cases t <;> cases isMandatoryFlag sheet row <;> rfl

/-! ## Header-row scan -/

/-- C6.  The header scan's own comment says "Only check first 10 rows",
and the claim says rows `1 .. min(10, row_count)` are scanned; but
`range(1, min(10, max_row + 1))` stops at row 9.  On `c6Sheet` the
sentinel `Type` sits in column 1 of row 10 — inside the claimed scan
range of a 10-row sheet — yet the function falls back to row 1. -/
theorem find_header_row_skips_row_ten :
    c6Sheet.maxRow = 10 ∧
    c6Sheet.cells 10 1 = CellVal.str "Type" ∧
    10 ≤ min 10 c6Sheet.maxRow ∧
    findHeaderRow c6Sheet = 1 := by
  refine ⟨by decide, by decide, by decide, by decide⟩

/-! ## Cost-processor factory -/

/-- The classifier only ever produces one of its four literal result
strings. -/
theorem determineCostType_mem (row : Nat) (sheet : Sheet) :
    determineCostType row sheet = "Fixed Mandatory" ∨
    determineCostType row sheet = "Fixed Optional" ∨
    determineCostType row sheet = "Fee Mandatory" ∨
    determineCostType row sheet = "Fee Optional" := by
  simp only [determineCostType]
  split <;> split <;> simp

/-- C10.  Every string the cost-type classifier can return contains
`Fixed` or `Fee` as a substring, so the processor factory always
returns a processor on classifier output and its `ValueError` branch is
unreachable there. -/
theorem cost_type_always_has_processor (row : Nat) (sheet : Sheet) :
    (strContainsSub (determineCostType row sheet) "Fixed" = true ∨
      strContainsSub (determineCostType row sheet) "Fee" = true) ∧
    ∃ p, createCostProcessor (determineCostType row sheet) = Except.ok p := by
  rcases determineCostType_mem row sheet with h | h | h | h <;> rw [h]
  · exact ⟨Or.inl (by decide), ProcKind.fixedCost, rfl⟩
  · exact ⟨Or.inl (by decide), ProcKind.fixedCost, rfl⟩
  · exact ⟨Or.inr (by decide), ProcKind.feeCost, rfl⟩
  · exact ⟨Or.inr (by decide), ProcKind.feeCost, rfl⟩

/-! ## Multiplication chains -/

/-- The early-returning accumulator loop of the chain evaluator equals
all-or-nothing resolution of the `PRIMITIVE!`-bearing factors followed
by a product: resolving every factor yields the accumulated product,
and any unresolved factor yields `0`. -/
theorem evalPrimGo_eq_resolveFactors (sheet : Sheet) (fuel : Nat) :
    ∀ ps acc, evalPrimGo sheet fuel ps acc =
      match resolveFactors sheet fuel (ps.filter (fun p => listContainsSub p "PRIMITIVE!".data)) with
      | some vs => acc * vs.prod
      | none => 0
  | [], acc => by simp [evalPrimGo, resolveFactors]
  | p :: ps, acc => by
    simp only [evalPrimGo, List.filter_cons]
    cases hp : listContainsSub p "PRIMITIVE!".data with
    | true =>
      simp only [if_true]
      cases hv : getCellValueByRef sheet fuel
          (String.mk (replaceList (stripList p) "PRIMITIVE!".data [])) with
      | some v =>
        dsimp only
        rw [evalPrimGo_eq_resolveFactors sheet fuel ps (acc * v)]
        simp only [resolveFactors, hv]
        cases resolveFactors sheet fuel
            (ps.filter (fun q => listContainsSub q "PRIMITIVE!".data)) with
        | some vs => simp [mul_assoc]
        | none => rfl
      | none => simp [resolveFactors, hv]
    | false =>
      simp only [Bool.false_eq_true, if_false]
      exact evalPrimGo_eq_resolveFactors sheet fuel ps acc

/-- C4, counterexample.  In the chain `PRIMITIVE!A1*PRIMITIVE!B1` over
`c4Sheet`, the factor `A1` resolves to `3` but `B1` does not resolve;
the evaluator then returns the number `0` — not `None` as claimed (its
result type is a plain float), and not the partial product `3`. -/
theorem evaluate_primitive_formula_unresolved_factor_counterexample :
    getCellValueByRef c4Sheet 5 "A1" = some 3 ∧
    getCellValueByRef c4Sheet 5 "B1" = none ∧
    evaluatePrimitiveFormula 5 "PRIMITIVE!A1*PRIMITIVE!B1" c4Sheet = 0 := by
  refine ⟨by decide, by decide, by decide⟩

/-- C4, amended.  For every formula, the multiplication-chain evaluator
returns the product of the resolved values of the `PRIMITIVE!`-bearing
factors when all of them resolve, and returns `0` — not `None`, whose
shape its float result type does not even admit — as soon as any such
factor fails to resolve (tokens without `PRIMITIVE!`, and formulas with
no `PRIMITIVE!` reference at all, also yield `0`). -/
theorem evaluate_primitive_formula_product (fuel : Nat) (formula : String) (sheet : Sheet) :
    evaluatePrimitiveFormula fuel formula sheet =
      if listContainsSub formula.data "PRIMITIVE!".data then
        match resolveFactors sheet fuel
            ((splitList formula.data ['*']).filter
              (fun p => listContainsSub p "PRIMITIVE!".data)) with
        | some vs => vs.prod
        | none => 0
      else 0 := by
  unfold evaluatePrimitiveFormula
  cases listContainsSub formula.data "PRIMITIVE!".data with
  | false => rfl
  | true =>
    simp only [if_true]
    rw [evalPrimGo_eq_resolveFactors]
    cases resolveFactors sheet fuel
        ((splitList formula.data ['*']).filter
          (fun p => listContainsSub p "PRIMITIVE!".data)) with
    | some vs => simp
    | none => rfl

/-! ## Division formulas -/

/-- C5.  Whenever a reference resolves to a cell holding a division
formula `=X/Y` and both operands resolve at the next recursion level,
the resolver returns `None` if the denominator is `0`, and the quotient
otherwise — it never raises. -/
theorem get_cell_value_by_ref_division (sheet : Sheet) (fuel : Nat) (ref : String)
    (row col : Nat) (hrc : refCoords ref = some (row, col))
    (v : String) (hv : sheet.cells row col = CellVal.str v)
    (hhead : headIs v '=' = true) (hslash : v.data.contains '/' = true)
    (xs ys : List Char) (hsplit : splitList (v.data.drop 1) ['/'] = [xs, ys])
    (xv yv : ℚ)
    (hx : getCellValueByRef sheet fuel (String.mk (replaceList (stripList xs) ['$'] [])) = some xv)
    (hy : getCellValueByRef sheet fuel (String.mk (replaceList (stripList ys) ['$'] [])) = some yv) :
    getCellValueByRef sheet (fuel+1) ref = if yv = 0 then none else some (xv / yv) := by
  simp only [getCellValueByRef, hrc, hv, hhead, hslash, hsplit, if_true]
  simp only [List.getD, List.get?_cons_zero, List.get?_cons_succ, Option.getD_some]
  rw [hx, hy]

/-- C5, witness: on `c5Sheet`, resolving `A1 = "=S25/B13"` with
`S25 = 10` and `B13 = 0` yields `None` rather than an error. -/
theorem get_cell_value_by_ref_division_witness :
    getCellValueByRef c5Sheet 2 "A1" = none := by
  rw [get_cell_value_by_ref_division c5Sheet 1 "A1" 1 1 (by decide) "=S25/B13" rfl
    (by decide) (by decide) "S25".data "B13".data (by decide) 10 0 (by decide) (by decide)]
  decide

/-! ## Cycle safety -/

/-- C8.  A two-cell cyclic division chain — `ref1`'s cell divides by a
formula whose numerator resolves back through `ref2` to `ref1` —
terminates with `None` for every recursion budget: under the recursion
cap the resolver never loops forever and never produces a value. -/
theorem get_cell_value_by_ref_cycle_none (sheet : Sheet) (ref1 ref2 : String)
    (r1 c1 r2 c2 : Nat)
    (hrc1 : refCoords ref1 = some (r1, c1)) (hrc2 : refCoords ref2 = some (r2, c2))
    (v1 v2 : String)
    (hv1 : sheet.cells r1 c1 = CellVal.str v1) (hv2 : sheet.cells r2 c2 = CellVal.str v2)
    (hh1 : headIs v1 '=' = true) (hs1 : v1.data.contains '/' = true)
    (hh2 : headIs v2 '=' = true) (hs2 : v2.data.contains '/' = true)
    (n1 d1 n2 d2 : List Char)
    (hp1 : splitList (v1.data.drop 1) ['/'] = [n1, d1])
    (hp2 : splitList (v2.data.drop 1) ['/'] = [n2, d2])
    (hn1 : String.mk (replaceList (stripList n1) ['$'] []) = ref2)
    (hn2 : String.mk (replaceList (stripList n2) ['$'] []) = ref1) :
    ∀ fuel, getCellValueByRef sheet fuel ref1 = none := by
  have key : ∀ fuel, getCellValueByRef sheet fuel ref1 = none ∧
      getCellValueByRef sheet fuel ref2 = none := by
    intro fuel
    induction fuel with
    | zero => exact ⟨rfl, rfl⟩
    | succ m ih =>
      obtain ⟨ih1, ih2⟩ := ih
      constructor
      · simp only [getCellValueByRef, hrc1, hv1, hh1, hs1, hp1, if_true]
        simp only [List.getD, List.get?_cons_zero, List.get?_cons_succ, Option.getD_some]
        rw [hn1, ih2]
      · simp only [getCellValueByRef, hrc2, hv2, hh2, hs2, hp2, if_true]
        simp only [List.getD, List.get?_cons_zero, List.get?_cons_succ, Option.getD_some]
        rw [hn2, ih1]
  intro fuel
  exact (key fuel).1

/-- C8, witness: on the concrete cyclic sheet `cycSheet`
(`A1 = "=B1/C1"`, `B1 = "=A1/C1"`), resolving `A1` with a budget of
1000 terminates with `None`. -/
theorem get_cell_value_by_ref_cycle_none_witness :
    getCellValueByRef cycSheet 1000 "A1" = none :=
  get_cell_value_by_ref_cycle_none cycSheet "A1" "B1" 1 1 1 2 (by decide) (by decide)
    "=B1/C1" "=A1/C1" rfl rfl (by decide) (by decide) (by decide) (by decide)
    "B1".data "C1".data "A1".data "C1".data (by decide) (by decide) (by decide) (by decide)
    1000

/-! ## Element rows and their SUM range -/

/-- C3, counterexample.  On `c3Sheet`, the bold element row 1 has
exactly two sub-elements (source rows 2 and 3); emitted at output row
2, they land in output rows 3 and 4, while the generated formula is
`=SUM(P3:P11)` — a fixed nine-row range that is not "exactly" the two
sub-element output rows. -/
theorem element_sum_range_two_subelements_counterexample :
    c3Sheet.bold 1 2 = true ∧
    collectSubElements c3Sheet 1 = [2, 3] ∧
    elementSumFormula 2 = "=SUM(P3:P11)" ∧
    parseSumRange (elementSumFormula 2) = some (16, 3, 16, 11) ∧
    subElementOutputRows 2 2 = [3, 4] ∧
    sumFormulaRows 2 ≠ subElementOutputRows 2 2 := by
  refine ⟨by decide, by decide, by decide, by decide, by decide, by decide⟩

/-- C3, amended.  For an element emitted at output row `n` with `k ≤ 9`
sub-elements, the generated `SUM` formula covers the fixed nine-row
block `P(n+1) .. P(n+9)`; the sub-element output rows are exactly a
prefix of that block (so the range contains them all, plus the padding
rows up to nine), rather than exactly the sub-element rows. -/
theorem element_sum_range_covers_subelement_prefix (n k : Nat) (hk : k ≤ 9) :
    subElementOutputRows n k <+: sumFormulaRows n ∧ (sumFormulaRows n).length = 9 := by
  constructor
  · unfold subElementOutputRows sumFormulaRows
    refine ⟨List.range' (n+1+k) (9-k), ?_⟩
    have h := List.range'_append (n+1) k (9-k) 1
    simp only [Nat.one_mul, Nat.mul_one] at h
    rw [show (9-k) + k = 9 from by omega] at h
    simpa using h
  · simp [sumFormulaRows]

/-- C3, witness: for two sub-elements at output row 2, rows `[3, 4]`
are a prefix of the nine-row block `[3 .. 11]`. -/
theorem element_sum_range_covers_subelement_prefix_witness :
    subElementOutputRows 2 2 <+: sumFormulaRows 2 ∧ (sumFormulaRows 2).length = 9 :=
  element_sum_range_covers_subelement_prefix 2 2 (by decide)

/-! ## Reference extraction -/

/-- C7, counterexample.  The extractor does not expand `SUM` ranges, it
does not default a sheetless token to the current sheet (such tokens
are dropped), and a malformed token with two `!` aborts the whole
extraction instead of being skipped. -/
theorem extract_cell_references_counterexample :
    extractCellReferences "=PRIMITIVE!U25*B12" = [("PRIMITIVE", "U25")] ∧
    extractCellReferences "=SUM(H5:H10)" = [] ∧
    extractCellReferences "=A!B!C*PRIMITIVE!U25" = [] := by
  refine ⟨by decide, by decide, by decide⟩

/-- C7, amended.  Extraction strips a leading `=` and splits on `*`;
every emitted reference comes from a token that splits on `!` into
exactly its sheet and cell parts; a token splitting into more than two
fields aborts the whole extraction to `[]` (nothing is "skipped and the
rest returned"); and when no token is malformed, every `sheet!cell`
token is emitted — tokens without `!` (among them `SUM(...)` tokens and
bare cell references) contribute nothing. -/
theorem extract_cell_references_characterization (formula : String) :
    (∀ sh ce : String, (sh, ce) ∈ extractCellReferences formula →
        ∃ p ∈ strippedTokens formula, splitList p ['!'] = [sh.data, ce.data]) ∧
    ((∃ p ∈ strippedTokens formula, 2 < (splitList p ['!']).length) →
        extractCellReferences formula = []) ∧
    (∀ (sh ce : String) (p : List Char), p ∈ strippedTokens formula →
        splitList p ['!'] = [sh.data, ce.data] →
        (∀ p2 ∈ strippedTokens formula, (splitList p2 ['!']).length ≤ 2) →
        (sh, ce) ∈ extractCellReferences formula) := by
  unfold extractCellReferences
  split
  · next hany =>
    refine ⟨?_, fun _ => rfl, ?_⟩
    · intro sh ce h
      exact absurd h (List.not_mem_nil _)
    · intro sh ce p hp hsplit hle
      exfalso
      rw [List.any_eq_true] at hany
      obtain ⟨p2, hp2, hlen⟩ := hany
      exact absurd (of_decide_eq_true hlen) (by simpa using hle p2 hp2)
  · next hany =>
    refine ⟨?_, ?_, ?_⟩
    · intro sh ce h
      rw [List.mem_filterMap] at h
      obtain ⟨p, hp, hmatch⟩ := h
      refine ⟨p, hp, ?_⟩
      rcases hsp : splitList p ['!'] with _ | ⟨a, _ | ⟨b, _ | _⟩⟩ <;>
        rw [hsp] at hmatch <;> simp_all
      obtain ⟨h1, h2⟩ := hmatch
      rw [← h1, ← h2]
      exact ⟨rfl, rfl⟩
    · intro h
      exfalso
      apply hany
      rw [List.any_eq_true]
      obtain ⟨p, hp, hlen⟩ := h
      exact ⟨p, hp, decide_eq_true hlen⟩
    · intro sh ce p hp hsplit hle
      rw [List.mem_filterMap]
      exact ⟨p, hp, by rw [hsplit]⟩

/-- C7, witness: `PRIMITIVE!U25` is a token of
`"=PRIMITIVE!U25*B12"` splitting into exactly the emitted pair. -/
theorem extract_cell_references_characterization_witness :
    ∃ p ∈ strippedTokens "=PRIMITIVE!U25*B12",
      splitList p ['!'] = ["PRIMITIVE".data, "U25".data] :=
  (extract_cell_references_characterization "=PRIMITIVE!U25*B12").1
    "PRIMITIVE" "U25" (by decide)

/-! ## First-reference resolution against the PRIMITIVE sheet -/

/-- C9, counterexample.  For `=OTHER!A1*PRIMITIVE!B2` the extracted
reference list does contain a reference targeting `PRIMITIVE` whose
cached value is the number 5, but it is not the *first* extracted
reference, so the deterministic resolver gives up (escalating to the
out-of-scope LLM fallback) instead of returning `5.0`. -/
theorem analyze_single_formula_first_ref_counterexample :
    extractCellReferences "=OTHER!A1*PRIMITIVE!B2" = [("OTHER", "A1"), ("PRIMITIVE", "B2")] ∧
    c9dSheet.cells 2 2 = CellVal.num 5 ∧
    analyzeSingleFormula emptySheet c9dSheet "=OTHER!A1*PRIMITIVE!B2" = none := by
  refine ⟨by decide, by decide, by decide⟩

/-- C9, amended.  When the *first* extracted reference (not the first
PRIMITIVE-targeting one) targets the `PRIMITIVE` sheet
(case-insensitive) and parses as one column letter plus a row number,
the resolver looks the cell up preferring the cached-value view and
returns its numeric value directly, whatever the formula view holds. -/
theorem analyze_single_formula_primitive_first_ref (primFormulas primData : Sheet)
    (formula : String) (sh ce : String) (rest : List (String × String))
    (h1 : extractCellReferences formula = (sh, ce) :: rest)
    (h2 : upperList sh.data = "PRIMITIVE".data)
    (c : Char) (ds : List Char) (hce : ce.data = c :: ds) (hc : c.isAlpha = true)
    (row : Nat) (hrow : pyIntNat ds = some row)
    (q : ℚ) (hq : primData.cells row (c.toUpper.toNat - 'A'.toNat + 1) = CellVal.num q) :
    analyzeSingleFormula primFormulas primData formula = some q := by
  unfold analyzeSingleFormula
  rw [h1]
  dsimp only
  rw [if_pos h2, hce]
  dsimp only
  rw [if_pos hc, hrow]
  dsimp only
  unfold getCellValueWithFallback
  rw [hq]

/-- C9, witness: the literal-resolution scenario — formula
`PRIMITIVE!B2` with the cached `PRIMITIVE.B2 = 5` resolves to `5`. -/
theorem analyze_single_formula_primitive_first_ref_witness :
    analyzeSingleFormula emptySheet c9dSheet "PRIMITIVE!B2" = some 5 :=
  analyze_single_formula_primitive_first_ref emptySheet c9dSheet "PRIMITIVE!B2"
    "PRIMITIVE" "B2" [] (by decide) (by decide) 'B' ['2'] rfl (by decide) 2 (by decide) 5 rfl

end DedaExcelAI
